import Mathlib

/-!
Shallow embedding of the streaming-delta pacing engine of
`src/hooks/useCodexEvents.ts` (codexia).

Modelling conventions:
* JS strings are sequences of UTF-16 code units; we model text as `List Char`
  (every value appearing in the claims stays in the BMP, where one code unit
  is one `Char`).  `String.prototype.slice(0, n)` / `.slice(n)` become
  `List.take` / `List.drop`.
* `Date.now()` timestamps and EWMA statistics are rationals (`ℚ`); JS numbers
  on these code paths never hit NaN/Infinity, so exact rational arithmetic is
  faithful.
* `Math.round` is `jsRound` (round half toward positive infinity),
  `Math.max`/`Math.min` are `max`/`min`.
* A JS truthiness test `x ? a : b` on a number is `if x ≠ 0 then a else b`.
* Timer handles (`setTimeout`/`setInterval`/`requestAnimationFrame` ids held
  in refs) are modelled as `Bool` flags: `true` means a callback is armed.
* The consumer (conversation store) is modelled by the accumulated text of the
  last assistant message's `content` / `reasoning` / `toolOutput` fields, a
  list of system messages, and the session-loading flag.  Message creation and
  streaming-flag bookkeeping are elided; they do not affect the claims.
-/

/-- JS `Math.round`: round half toward positive infinity, i.e. `⌊q + 1/2⌋`,
written out as `num / den` of the shifted rational so that it evaluates by
kernel reduction. -/
def jsRound (q : ℚ) : ℤ := (q + 1/2).num / ((q + 1/2).den : ℤ)

/-- The JS regexp class `\s` (whitespace), restricted to the code points the
regexp engine matches. -/
def jsIsSpace (c : Char) : Bool :=
  c = ' ' || c = '\t' || c = '\n' || c = '\r' ||
  c = Char.ofNat 0x0b || c = Char.ofNat 0x0c ||
  c = Char.ofNat 0xa0 || c = Char.ofNat 0x1680 ||
  (0x2000 ≤ c.toNat && c.toNat ≤ 0x200a) ||
  c = Char.ofNat 0x2028 || c = Char.ofNat 0x2029 ||
  c = Char.ofNat 0x202f || c = Char.ofNat 0x205f ||
  c = Char.ofNat 0x3000 || c = Char.ofNat 0xfeff

/-- One character of the class `[\s\.!?,;:\n]` used by `hasWordBoundary`. -/
def isBoundaryChar (c : Char) : Bool :=
  jsIsSpace c || c = '.' || c = '!' || c = '?' ||
  c = ',' || c = ';' || c = ':' || c = '\n'

/-- Source `hasWordBoundary = (s) => /[\s\.!?,;:\n]/.test(s)`. -/
def hasWordBoundary (s : List Char) : Bool := s.any isBoundaryChar

/-- The `answerStatsRef.current` record of the hook. -/
structure AnswerStats where
  started : Bool
  lastDeltaAt : ℚ
  lastFlushAt : ℚ
  ewmaInterMs : ℚ
  ewmaRateCps : ℚ
deriving DecidableEq, Repr

/-- Tunables from the hook. -/
def DEFAULT_MIN_CHUNK : ℕ := 12
def FRAME_TARGET_MS : ℚ := 32
def MIN_FLUSH_MS : ℚ := 16
def INITIAL_BOOST_MS : ℚ := 4000

/-- Source `updateAnswerStats(deltaLen)` with the ambient `Date.now()` passed as
`now`. -/
def updateAnswerStats (deltaLen : ℕ) (now : ℚ) (stats : AnswerStats) :
    AnswerStats :=
  let stats' :=
    if stats.lastDeltaAt > 0 then
      let inter := max 1 (now - stats.lastDeltaAt)
      let instantRate := ((deltaLen : ℚ) / inter) * 1000
      { stats with
        ewmaInterMs :=
          if stats.ewmaInterMs ≠ 0 then
            stats.ewmaInterMs * 0.7 + inter * 0.3
          else inter,
        ewmaRateCps :=
          if stats.ewmaRateCps ≠ 0 then
            stats.ewmaRateCps * 0.7 + instantRate * 0.3
          else instantRate }
    else stats
  { stats' with lastDeltaAt := now }

/-- Source `computeDesiredChunk()` (reads only the rate statistics). -/
def computeDesiredChunk (stats : AnswerStats) : ℕ :=
  let rate := stats.ewmaRateCps
  if rate ≤ 0 then DEFAULT_MIN_CHUNK
  else (max (DEFAULT_MIN_CHUNK : ℤ)
        (min 256 (jsRound (rate * FRAME_TARGET_MS / 1000)))).toNat

/-- Source `computeWaits()`: the `(soft, hard)` millisecond pair. -/
def computeWaits (stats : AnswerStats) : ℚ × ℚ :=
  let inter := if stats.ewmaInterMs ≠ 0 then stats.ewmaInterMs else 40
  let soft := max MIN_FLUSH_MS (min 120 ((jsRound (inter * 1.1) : ℤ) : ℚ))
  let hard := max 80 (min 320 (soft * 3))
  (soft, hard)

/-- Base per-tick slice of the answer spooler:
`Math.max(8, Math.min(96, Math.round((ewmaRateCps || 120) * FRAME_TARGET_MS / 1000)))`. -/
def spoolBase (rate : ℚ) : ℕ :=
  (max (8 : ℤ)
    (min 96 (jsRound ((if rate ≠ 0 then rate else 120) * FRAME_TARGET_MS / 1000)))).toNat

/-- The backlog-scaled slice the spooler takes on one tick. -/
def spoolTake (rate : ℚ) (backlog : ℕ) : ℕ :=
  let take := spoolBase rate
  if backlog > 400 then min 192 (take * 3)
  else if backlog > 200 then min 144 (take * 2)
  else take

/-- The whole per-session mutable state of the hook that the claims touch. -/
structure CState where
  buffer : List Char
  softFlushTimer : Bool
  flushTimer : Bool
  answerSpooler : Bool
  stats : AnswerStats
  answerStartTs : ℚ
  reasoningBuffer : List Char
  reasoningFlushTimer : Bool
  reasoningRevealTimer : Bool
  reasoningRafId : Bool
  toolBuffer : List Char
  toolRafId : Bool
  content : List Char
  reasoning : List Char
  toolOutput : List Char
  loading : Bool
  systemMessages : List (List Char)
deriving DecidableEq, Repr

/-- Source `flushBuffer(forced)`, with the ambient `Date.now()` passed as `now`. -/
def flushBuffer (forced : Bool) (now : ℚ) (st : CState) : CState :=
  if st.buffer = [] then st
  else if ¬forced ∧ st.buffer.length < computeDesiredChunk st.stats ∧
          ¬hasWordBoundary st.buffer then st
  else
    { st with
      content := st.content ++ st.buffer,
      buffer := [],
      stats := { st.stats with lastFlushAt := now },
      softFlushTimer := false,
      flushTimer := false }

/-- Body of the 33 ms interval spooler started on the first delta of a turn. -/
def spoolerTick (st : CState) : CState :=
  if st.buffer = [] then st
  else
    let take := spoolTake st.stats.ewmaRateCps st.buffer.length
    { st with
      content := st.content ++ st.buffer.take take,
      buffer := st.buffer.drop take }

/-- What `scheduleFlush` dispatched for later (or did synchronously). -/
inductive FlushDispatch where
  /-- A `setTimeout(() => flushBuffer(true), delay)`: forced flush after
  `delay` ms. -/
  | timeoutForced (delay : ℚ)
  /-- Call `flushBuffer()` was made synchronously (non-forced). -/
  | flushedNow
  /-- soft timer armed: `setTimeout(() => flushBuffer(), delay)`. -/
  | softTimeout (delay : ℚ)
  /-- soft and hard timers armed: non-forced flush at `soft` ms, forced
  flush at `hard` ms. -/
  | softAndHard (soft hard : ℚ)
deriving DecidableEq, Repr

/-- Source `scheduleFlush()`, with the ambient `Date.now()` passed as `now`.
Returns the mutated state and the dispatch decision taken. -/
def scheduleFlush (now : ℚ) (st : CState) : CState × FlushDispatch :=
  let inBoost := st.answerStartTs > 0 ∧ now - st.answerStartTs < INITIAL_BOOST_MS
  if st.stats.started = false then
    ({ st with
        stats := { st.stats with started := true },
        answerStartTs := now,
        answerSpooler := true },
     .timeoutForced 0)
  else if inBoost then
    (st, .timeoutForced 0)
  else
    let desired := computeDesiredChunk st.stats
    let waits := computeWaits st.stats
    if st.buffer.length ≥ desired then
      let sinceLast := now - st.stats.lastFlushAt
      let delay := max 0 (MIN_FLUSH_MS - sinceLast)
      if delay = 0 then (flushBuffer false now st, .flushedNow)
      else ({ st with softFlushTimer := true }, .softTimeout delay)
    else
      ({ st with softFlushTimer := true, flushTimer := true },
       .softAndHard waits.1 waits.2)

/-- Source `resetAnswerStats()`. -/
def resetAnswerStats (st : CState) : CState :=
  { st with
    stats := ⟨false, 0, 0, 0, 0⟩,
    softFlushTimer := false,
    flushTimer := false,
    buffer := [],
    answerStartTs := 0,
    answerSpooler := false }

/-- Source `resetToolBuffer()`. -/
def resetToolBuffer (st : CState) : CState :=
  { st with toolRafId := false, toolBuffer := [] }

/-- Source `flushToolBuffer(finalize)`; the streaming flag is elided. -/
def flushToolBuffer (st : CState) : CState :=
  if st.toolBuffer = [] then st
  else { st with toolOutput := st.toolOutput ++ st.toolBuffer, toolBuffer := [] }

/-- Source `scheduleToolFlush()`: arm one animation-frame callback if none is. -/
def scheduleToolFlush (st : CState) : CState :=
  if st.toolRafId then st else { st with toolRafId := true }

/-- Source `flushReasoningBuffer(forced)`.  The reveal timer and the rAF loop are
cancelled first; then, unless the buffer is empty and the call is not forced,
the whole buffer is released and the legacy flush timer cancelled. -/
def flushReasoningBuffer (forced : Bool) (st : CState) : CState :=
  let st' := { st with reasoningRevealTimer := false, reasoningRafId := false }
  if st'.reasoningBuffer = [] ∧ ¬forced then st'
  else
    { st' with
      reasoning := st'.reasoning ++ st'.reasoningBuffer,
      reasoningBuffer := [],
      reasoningFlushTimer := false }

/-- The `task_started` case of `handleCodexEvent`. -/
def handleTaskStarted (st : CState) : CState :=
  { resetToolBuffer (resetAnswerStats st) with loading := true }

/-- The `turn_complete` case of `handleCodexEvent` (the store snapshot and
the final streaming-flag rewrite are elided). -/
def handleTurnComplete (now : ℚ) (st : CState) : CState :=
  let st1 := flushBuffer true now st
  let st2 := flushReasoningBuffer true st1
  let st3 := flushToolBuffer st2
  let st4 := resetToolBuffer st3
  let st5 := resetAnswerStats st4
  { st5 with loading := false }

/-- The `error` case of `handleCodexEvent`: add a system message
`"Error: " + msg.message` and clear the loading flag. -/
def handleError (message : List Char) (st : CState) : CState :=
  { st with
    systemMessages := st.systemMessages ++ ["Error: ".toList ++ message],
    loading := false }

/-- JS `String.fromCharCode(...chunk)`: each number is coerced to a UTF-16 code
unit (`ToUint16`) and becomes one code unit of the result. -/
def fromCharCode (chunk : List ℕ) : List Char :=
  chunk.map (fun n => Char.ofNat (n % 65536))

/-- The `exec_command_output_delta` case of `handleCodexEvent`. -/
def handleExecOutputDelta (chunk : List ℕ) (st : CState) : CState :=
  scheduleToolFlush { st with toolBuffer := st.toolBuffer ++ fromCharCode chunk }

/-- The `agent_message_delta` case of `handleCodexEvent`, restricted to its
buffer/stats/scheduling effect (message creation elided). -/
def handleAnswerDelta (s : List Char) (now : ℚ) (st : CState) : CState :=
  (scheduleFlush now
    { st with
      stats := updateAnswerStats s.length now st.stats,
      buffer := st.buffer ++ s }).1

/-- One event-loop callback touching the answer channel: a delta arrival, a
timer callback running `flushBuffer(forced)`, or one spooler interval tick. -/
inductive AOp where
  | delta (s : List Char) (now : ℚ)
  | timerFire (forced : Bool) (now : ℚ)
  | spool
deriving DecidableEq, Repr

/-- Run one callback. -/
def applyAOp (st : CState) : AOp → CState
  | .delta s now => handleAnswerDelta s now st
  | .timerFire forced now => flushBuffer forced now st
  | .spool => spoolerTick st

/-- Run a whole event-loop schedule. -/
def applyOps (st : CState) (ops : List AOp) : CState := ops.foldl applyAOp st

/-- Concatenation, in arrival order, of all delta payloads in a schedule. -/
def deltasText : List AOp → List Char
  | [] => []
  | .delta s _ :: ops => s ++ deltasText ops
  | .timerFire _ _ :: ops => deltasText ops
  | .spool :: ops => deltasText ops

/-- Fresh per-session state: empty buffers, no timers, fresh statistics. -/
def initState : CState :=
  { buffer := [], softFlushTimer := false, flushTimer := false,
    answerSpooler := false, stats := ⟨false, 0, 0, 0, 0⟩, answerStartTs := 0,
    reasoningBuffer := [], reasoningFlushTimer := false,
    reasoningRevealTimer := false, reasoningRafId := false,
    toolBuffer := [], toolRafId := false,
    content := [], reasoning := [], toolOutput := [],
    loading := false, systemMessages := [] }

/-! Helper lemmas: every answer-channel callback moves text only from the
pending buffer to the visible content, preserving `content ++ buffer` up to
the newly appended deltas. -/

theorem flushBuffer_content_append_buffer (forced : Bool) (now : ℚ)
    (st : CState) :
    (flushBuffer forced now st).content ++ (flushBuffer forced now st).buffer =
      st.content ++ st.buffer := by
  unfold flushBuffer
  split
  · rfl
  · split
    · rfl
    · simp

theorem spoolerTick_content_append_buffer (st : CState) :
    (spoolerTick st).content ++ (spoolerTick st).buffer =
      st.content ++ st.buffer := by
  unfold spoolerTick
  split
  · rfl
  · simp only [List.append_assoc, List.take_append_drop]

theorem scheduleFlush_content_append_buffer (now : ℚ) (st : CState) :
    ((scheduleFlush now st).1).content ++ ((scheduleFlush now st).1).buffer =
      st.content ++ st.buffer := by
  unfold scheduleFlush
  dsimp only
  split
  · rfl
  · split
    · rfl
    · split
      · split
        · exact flushBuffer_content_append_buffer false now st
        · rfl
      · rfl

theorem handleAnswerDelta_content_append_buffer (s : List Char) (now : ℚ)
    (st : CState) :
    (handleAnswerDelta s now st).content ++ (handleAnswerDelta s now st).buffer =
      st.content ++ st.buffer ++ s := by
  unfold handleAnswerDelta
  rw [scheduleFlush_content_append_buffer]
  simp

theorem applyAOp_content_append_buffer (st : CState) (op : AOp) :
    (applyAOp st op).content ++ (applyAOp st op).buffer =
      st.content ++ st.buffer ++ deltasText [op] := by
  cases op with
  | delta s now =>
      simpa [applyAOp, deltasText] using
        handleAnswerDelta_content_append_buffer s now st
  | timerFire forced now =>
      simpa [applyAOp, deltasText] using
        flushBuffer_content_append_buffer forced now st
  | spool =>
      simpa [applyAOp, deltasText] using spoolerTick_content_append_buffer st

theorem applyOps_content_append_buffer (ops : List AOp) (st : CState) :
    (applyOps st ops).content ++ (applyOps st ops).buffer =
      st.content ++ st.buffer ++ deltasText ops := by
  induction ops generalizing st with
  | nil => simp [applyOps, deltasText]
  | cons op ops ih =>
      have hop := applyAOp_content_append_buffer st op
      have hd : deltasText (op :: ops) = deltasText [op] ++ deltasText ops := by
        cases op <;> simp [deltasText]
      have hstep : applyOps st (op :: ops) = applyOps (applyAOp st op) ops := rfl
      rw [hstep, ih (applyAOp st op), hop, hd]
      simp [List.append_assoc]

theorem flushBuffer_forced_drains (now : ℚ) (st : CState) :
    (flushBuffer true now st).content = st.content ++ st.buffer ∧
      (flushBuffer true now st).buffer = [] := by
  unfold flushBuffer
  split
  · rename_i h
    simp [h]
  · simp

/-- C1: for any interleaving of delta arrivals, timer-callback flushes and
spooler ticks on the answer channel, a final forced drain leaves the
consumer-visible content equal to the exact concatenation of all deltas in
arrival order: no text is lost, duplicated or reordered. -/
theorem answer_stream_no_loss_no_duplication (ops : List AOp) (now : ℚ) :
    (flushBuffer true now (applyOps initState ops)).content = deltasText ops := by
  have h := applyOps_content_append_buffer ops initState
  have hf := flushBuffer_forced_drains now (applyOps initState ops)
  rw [hf.1, h]
  simp [initState]

/-- C2: while the turn-start timestamp is set and fewer than `INITIAL_BOOST_MS`
milliseconds have elapsed since turn start — and also on the very first delta
of a turn — `scheduleFlush` dispatches a forced flush at zero added delay,
applying no soft wait, hard wait, or size/word-boundary check. -/
theorem boost_window_forced_zero_delay (st : CState) (now : ℚ)
    (h : st.stats.started = false ∨
      (st.answerStartTs > 0 ∧ now - st.answerStartTs < INITIAL_BOOST_MS)) :
    (scheduleFlush now st).2 = FlushDispatch.timeoutForced 0 := by
  unfold scheduleFlush
  dsimp only
  by_cases hs : st.stats.started = false
  · rw [if_pos hs]
  · rcases h with h | h
    · exact absurd h hs
    · rw [if_neg hs, if_pos h]

theorem boost_window_forced_zero_delay_witness :
    (scheduleFlush 2000
        { initState with stats := ⟨true, 50, 0, 0, 0⟩, answerStartTs := 1000 }).2 =
      FlushDispatch.timeoutForced 0 :=
  boost_window_forced_zero_delay _ 2000
    (Or.inr ⟨by with_unfolding_all decide, by with_unfolding_all decide⟩)

/-- C5: a non-forced flush releases the whole pending answer buffer exactly
when its length reaches the desired chunk size or it contains a word
boundary; otherwise it leaves the state untouched. -/
theorem nonforced_flush_release_guard (st : CState) (now : ℚ)
    (hne : st.buffer ≠ []) :
    ((computeDesiredChunk st.stats ≤ st.buffer.length ∨
        hasWordBoundary st.buffer = true) →
      (flushBuffer false now st).content = st.content ++ st.buffer ∧
        (flushBuffer false now st).buffer = []) ∧
    ((st.buffer.length < computeDesiredChunk st.stats ∧
        hasWordBoundary st.buffer = false) →
      flushBuffer false now st = st) := by
  constructor
  · intro h
    unfold flushBuffer
    rw [if_neg hne, if_neg]
    · exact ⟨rfl, rfl⟩
    · rintro ⟨-, hlt, hnb⟩
      rcases h with h | h
      · exact absurd h (not_le.mpr hlt)
      · exact hnb h
  · rintro ⟨hlt, hnb⟩
    unfold flushBuffer
    rw [if_neg hne, if_pos]
    exact ⟨by simp, hlt, by simp [hnb]⟩

theorem nonforced_flush_release_guard_witness :
    flushBuffer false 0 { initState with buffer := 'h' :: 'e' :: 'l' :: [] } =
      { initState with buffer := 'h' :: 'e' :: 'l' :: [] } ∧
    (flushBuffer false 0
        { initState with buffer := 'h' :: 'e' :: 'l' :: ' ' :: [] }).content =
      'h' :: 'e' :: 'l' :: ' ' :: [] := by
  constructor
  · exact (nonforced_flush_release_guard
      { initState with buffer := 'h' :: 'e' :: 'l' :: [] } 0 (by decide)).2
      ⟨by decide, by decide⟩
  · have h := (nonforced_flush_release_guard
      { initState with buffer := 'h' :: 'e' :: 'l' :: ' ' :: [] } 0 (by decide)).1
      (Or.inr (by decide))
    simpa [initState] using h.1

/-- C3 counterexample: on `task_started` the reasoning channel is not reset —
a nonempty reasoning buffer and an armed reasoning animation-frame callback
survive the turn-start boundary unchanged. -/
theorem turn_start_keeps_reasoning_channel :
    (handleTaskStarted
        { initState with reasoningBuffer := 'r' :: [], reasoningRafId := true, reasoningFlushTimer := true }).reasoningBuffer = 'r' :: [] ∧
    (handleTaskStarted
        { initState with reasoningBuffer := 'r' :: [], reasoningRafId := true, reasoningFlushTimer := true }).reasoningRafId = true ∧
    (handleTaskStarted
        { initState with reasoningBuffer := 'r' :: [], reasoningRafId := true, reasoningFlushTimer := true }).reasoningFlushTimer = true := by
  decide

/-- C3 amended: on turn-complete the handler empties all three channels'
buffers and cancels every timer, interval and animation-frame callback; on
turn-start only the answer and tool-output channels are cleared and their
scheduled work cancelled, while the reasoning buffer and its animation-frame
callback are left untouched. -/
theorem lifecycle_reset_clears_channels (st : CState) (now : ℚ) :
    ((handleTurnComplete now st).buffer = [] ∧
     (handleTurnComplete now st).reasoningBuffer = [] ∧
     (handleTurnComplete now st).toolBuffer = [] ∧
     (handleTurnComplete now st).softFlushTimer = false ∧
     (handleTurnComplete now st).flushTimer = false ∧
     (handleTurnComplete now st).answerSpooler = false ∧
     (handleTurnComplete now st).toolRafId = false ∧
     (handleTurnComplete now st).reasoningRafId = false ∧
     (handleTurnComplete now st).reasoningRevealTimer = false ∧
     (handleTurnComplete now st).reasoningFlushTimer = false ∧
     (handleTurnComplete now st).loading = false) ∧
    ((handleTaskStarted st).buffer = [] ∧
     (handleTaskStarted st).toolBuffer = [] ∧
     (handleTaskStarted st).softFlushTimer = false ∧
     (handleTaskStarted st).flushTimer = false ∧
     (handleTaskStarted st).answerSpooler = false ∧
     (handleTaskStarted st).toolRafId = false ∧
     (handleTaskStarted st).reasoningBuffer = st.reasoningBuffer ∧
     (handleTaskStarted st).reasoningRafId = st.reasoningRafId) := by
  constructor
  · unfold handleTurnComplete flushBuffer flushReasoningBuffer flushToolBuffer
      resetToolBuffer resetAnswerStats
    dsimp only
    split_ifs <;> simp_all
  · unfold handleTaskStarted resetToolBuffer resetAnswerStats
    exact ⟨rfl, rfl, rfl, rfl, rfl, rfl, rfl, rfl⟩

/-- C4 counterexample: the error handler performs no forced flush and cancels
no scheduled work — pending answer text, the armed soft timer and the running
spooler interval all survive the error event. -/
theorem error_event_no_drain :
    (handleError ('b' :: 'o' :: 'o' :: 'm' :: [])
        { initState with buffer := 'p' :: [], softFlushTimer := true, answerSpooler := true }).buffer = 'p' :: [] ∧
    (handleError ('b' :: 'o' :: 'o' :: 'm' :: [])
        { initState with buffer := 'p' :: [], softFlushTimer := true, answerSpooler := true }).softFlushTimer = true ∧
    (handleError ('b' :: 'o' :: 'o' :: 'm' :: [])
        { initState with buffer := 'p' :: [], softFlushTimer := true, answerSpooler := true }).answerSpooler = true := by
  decide

/-- C4 amended: on a producer-reported error event the handler appends a
system-level `Error:` message to the consumer and clears the session loading
indicator, but performs no flush of pending text and cancels no scheduled
work: every buffer and every timer flag is left exactly as it was.  The
handler is a total function, so it never raises to its caller. -/
theorem error_event_behavior (message : List Char) (st : CState) :
    (handleError message st).systemMessages =
      st.systemMessages ++ ["Error: ".toList ++ message] ∧
    (handleError message st).loading = false ∧
    (handleError message st).buffer = st.buffer ∧
    (handleError message st).reasoningBuffer = st.reasoningBuffer ∧
    (handleError message st).toolBuffer = st.toolBuffer ∧
    (handleError message st).softFlushTimer = st.softFlushTimer ∧
    (handleError message st).flushTimer = st.flushTimer ∧
    (handleError message st).answerSpooler = st.answerSpooler ∧
    (handleError message st).reasoningRafId = st.reasoningRafId ∧
    (handleError message st).reasoningRevealTimer = st.reasoningRevealTimer ∧
    (handleError message st).reasoningFlushTimer = st.reasoningFlushTimer ∧
    (handleError message st).toolRafId = st.toolRafId ∧
    (handleError message st).content = st.content := by
  exact ⟨rfl, rfl, rfl, rfl, rfl, rfl, rfl, rfl, rfl, rfl, rfl, rfl, rfl⟩

set_option maxRecDepth 4000 in
/-- C6 counterexample: with a learned rate of 3000 chars/sec the base slice
is 96, yet on a 201-character backlog the spooler tick releases only 144
characters — less than double the base slice, because the doubled slice is
clamped at 144. -/
theorem spool_catchup_not_double :
    spoolBase 3000 = 96 ∧
    (spoolerTick
        { initState with buffer := List.replicate 201 'a', stats := ⟨true, 0, 0, 0, 3000⟩ }).content.length = 144 ∧
    144 < 2 * spoolBase 3000 := by
  with_unfolding_all decide

/-- C6 amended: on a spooler tick with backlog above 200 (and at most 400)
the slice taken is double the base slice capped at 144 characters; above 400
it is triple the base slice capped at 192; at or below 200 it is the base
slice itself.  The released slice is therefore at least double (resp. triple)
the base only when the base is at most 72 (resp. 64). -/
theorem spool_catchup_clamped (rate : ℚ) (backlog : ℕ) :
    (200 < backlog → backlog ≤ 400 →
      spoolTake rate backlog = min 144 (2 * spoolBase rate)) ∧
    (400 < backlog →
      spoolTake rate backlog = min 192 (3 * spoolBase rate)) ∧
    (backlog ≤ 200 → spoolTake rate backlog = spoolBase rate) := by
  unfold spoolTake
  dsimp only
  refine ⟨fun h1 h2 => ?_, fun h => ?_, fun h => ?_⟩
  · rw [if_neg (by omega), if_pos (by omega), Nat.mul_comm]
  · rw [if_pos (by omega), Nat.mul_comm]
  · rw [if_neg (by omega), if_neg (by omega)]

theorem spool_catchup_clamped_witness :
    spoolTake 3000 201 = min 144 (2 * spoolBase 3000) ∧
    spoolTake 3000 401 = min 192 (3 * spoolBase 3000) ∧
    spoolTake 3000 100 = spoolBase 3000 :=
  ⟨(spool_catchup_clamped 3000 201).1 (by decide) (by decide),
   (spool_catchup_clamped 3000 401).2.1 (by decide),
   (spool_catchup_clamped 3000 100).2.2 (by decide)⟩

/-- C7 counterexample: a spooler-tick release does not cancel the soft or
hard flush timer — after the tick releases 8 characters both timers are
still armed. -/
theorem spooler_release_keeps_timers :
    (spoolerTick
        { initState with buffer := List.replicate 10 'a', softFlushTimer := true, flushTimer := true }).content.length = 8 ∧
    (spoolerTick
        { initState with buffer := List.replicate 10 'a', softFlushTimer := true, flushTimer := true }).softFlushTimer = true ∧
    (spoolerTick
        { initState with buffer := List.replicate 10 'a', softFlushTimer := true, flushTimer := true }).flushTimer = true := by
  with_unfolding_all decide

/-- C7 amended: every release performed by `flushBuffer` — whether
timer-triggered, immediate, or forced — cancels both the soft and the hard
flush timer (when `flushBuffer` releases nothing it leaves the state
untouched); spooler-tick releases, by contrast, leave both timer flags
exactly as they were. -/
theorem flush_release_cancels_timers (forced : Bool) (now : ℚ) (st : CState) :
    (flushBuffer forced now st = st ∨
      ((flushBuffer forced now st).softFlushTimer = false ∧
       (flushBuffer forced now st).flushTimer = false)) ∧
    (spoolerTick st).softFlushTimer = st.softFlushTimer ∧
    (spoolerTick st).flushTimer = st.flushTimer := by
  refine ⟨?_, ?_, ?_⟩
  · unfold flushBuffer
    split
    · exact Or.inl rfl
    · split
      · exact Or.inl rfl
      · exact Or.inr ⟨rfl, rfl⟩
  · unfold spoolerTick
    split <;> rfl
  · unfold spoolerTick
    split <;> rfl

/-- C8 counterexample: the very first observation does not seed the EWMAs —
after `updateAnswerStats` runs on fresh statistics, both EWMAs are still 0
(unset) and only `lastDeltaAt` has changed. -/
theorem first_observe_leaves_ewma_unset :
    (updateAnswerStats 5 100 ⟨false, 0, 0, 0, 0⟩).ewmaInterMs = 0 ∧
    (updateAnswerStats 5 100 ⟨false, 0, 0, 0, 0⟩).ewmaRateCps = 0 ∧
    updateAnswerStats 5 100 ⟨false, 0, 0, 0, 0⟩ = ⟨false, 100, 0, 0, 0⟩ := by
  decide

/-- C8 amended: each observe step updates `lastDeltaAt` to the current time;
when a previous timestamp exists it computes the elapsed interval floored at
1 ms, derives the instantaneous rate `deltaLength / interval` scaled to
chars/sec, and folds interval and rate into their EWMAs with weight 0.3 for
the new sample and 0.7 for history, seeding each EWMA from the raw value on
its first update; the very first observation records only `lastDeltaAt` and
leaves the EWMAs unset.  Only the rate statistics are mutated and there are
no error conditions. -/
theorem observe_updates_stats (stats : AnswerStats) (deltaLen : ℕ) (now : ℚ) :
    (updateAnswerStats deltaLen now stats).lastDeltaAt = now ∧
    (updateAnswerStats deltaLen now stats).started = stats.started ∧
    (updateAnswerStats deltaLen now stats).lastFlushAt = stats.lastFlushAt ∧
    (stats.lastDeltaAt ≤ 0 →
      (updateAnswerStats deltaLen now stats).ewmaInterMs = stats.ewmaInterMs ∧
      (updateAnswerStats deltaLen now stats).ewmaRateCps = stats.ewmaRateCps) ∧
    (0 < stats.lastDeltaAt →
      (updateAnswerStats deltaLen now stats).ewmaInterMs =
        (if stats.ewmaInterMs ≠ 0 then
          stats.ewmaInterMs * 0.7 + (max 1 (now - stats.lastDeltaAt)) * 0.3
        else max 1 (now - stats.lastDeltaAt)) ∧
      (updateAnswerStats deltaLen now stats).ewmaRateCps =
        (if stats.ewmaRateCps ≠ 0 then
          stats.ewmaRateCps * 0.7 +
            (((deltaLen : ℚ) / max 1 (now - stats.lastDeltaAt)) * 1000) * 0.3
        else ((deltaLen : ℚ) / max 1 (now - stats.lastDeltaAt)) * 1000)) := by
  unfold updateAnswerStats
  dsimp only
  by_cases h : stats.lastDeltaAt > 0
  · rw [if_pos h]
    exact ⟨rfl, rfl, rfl, fun hle => absurd h (not_lt.mpr hle),
      fun _ => ⟨rfl, rfl⟩⟩
  · rw [if_neg h]
    exact ⟨rfl, rfl, rfl, fun _ => ⟨rfl, rfl⟩, fun hlt => absurd hlt h⟩

theorem observe_updates_stats_witness :
    (updateAnswerStats 30 100 ⟨true, 50, 7, 0, 0⟩).lastDeltaAt = 100 ∧
    (updateAnswerStats 30 100 ⟨true, 50, 7, 0, 0⟩).lastFlushAt = 7 ∧
    (updateAnswerStats 30 100 ⟨true, 50, 7, 0, 0⟩).ewmaInterMs =
      max 1 ((100 : ℚ) - 50) ∧
    (updateAnswerStats 30 100 ⟨true, 50, 7, 0, 0⟩).ewmaRateCps =
      (((30 : ℕ) : ℚ) / max 1 ((100 : ℚ) - 50)) * 1000 := by
  have h := observe_updates_stats ⟨true, 50, 7, 0, 0⟩ 30 100
  have h5 := h.2.2.2.2 (by decide)
  exact ⟨h.1, h.2.2.1, by rw [h5.1, if_neg (by decide)],
    by rw [h5.2, if_neg (by decide)]⟩

/-- C9: the desired chunk size is the EWMA rate in chars/sec times the 32 ms
frame budget divided by 1000 (rounded), clamped to a floor of
`DEFAULT_MIN_CHUNK = 12` and a ceiling of 256 characters; when no positive
rate is known it is the floor of 12. -/
theorem desired_chunk_formula (stats : AnswerStats) :
    (stats.ewmaRateCps ≤ 0 → computeDesiredChunk stats = DEFAULT_MIN_CHUNK) ∧
    (0 < stats.ewmaRateCps →
      computeDesiredChunk stats =
        (max (DEFAULT_MIN_CHUNK : ℤ)
          (min 256 (jsRound (stats.ewmaRateCps * FRAME_TARGET_MS / 1000)))).toNat ∧
      DEFAULT_MIN_CHUNK ≤ computeDesiredChunk stats ∧
      computeDesiredChunk stats ≤ 256) := by
  constructor
  · intro h
    unfold computeDesiredChunk
    rw [if_pos h]
  · intro h
    unfold computeDesiredChunk
    dsimp only
    rw [if_neg (not_le.mpr h)]
    refine ⟨rfl, ?_, ?_⟩
    · have h12 : (DEFAULT_MIN_CHUNK : ℤ) ≤
          max (DEFAULT_MIN_CHUNK : ℤ)
            (min 256 (jsRound (stats.ewmaRateCps * FRAME_TARGET_MS / 1000))) :=
        le_max_left _ _
      unfold DEFAULT_MIN_CHUNK at h12 ⊢
      omega
    · have h256 : max (DEFAULT_MIN_CHUNK : ℤ)
          (min 256 (jsRound (stats.ewmaRateCps * FRAME_TARGET_MS / 1000))) ≤ 256 := by
        apply max_le
        · unfold DEFAULT_MIN_CHUNK
          norm_num
        · exact min_le_left _ _
      omega

theorem desired_chunk_formula_witness :
    computeDesiredChunk ⟨false, 0, 0, 0, 0⟩ = DEFAULT_MIN_CHUNK ∧
    (DEFAULT_MIN_CHUNK ≤ computeDesiredChunk ⟨false, 0, 0, 50, 3000⟩ ∧
     computeDesiredChunk ⟨false, 0, 0, 50, 3000⟩ ≤ 256) :=
  ⟨(desired_chunk_formula ⟨false, 0, 0, 0, 0⟩).1 (by decide),
   ((desired_chunk_formula ⟨false, 0, 0, 50, 3000⟩).2 (by decide)).2⟩

/-- C10: an `exec_command_output_delta` event carrying `n` bytes appends
exactly `n` UTF-16 code units to the tool-output buffer, the i-th being the
i-th byte value interpreted as a code point — bytes map one-to-one to
characters and multi-byte UTF-8 sequences are never decoded. -/
theorem exec_output_delta_byte_per_char (chunk : List ℕ) (st : CState)
    (h : ∀ b ∈ chunk, b < 256) :
    (handleExecOutputDelta chunk st).toolBuffer =
      st.toolBuffer ++ chunk.map (fun b => Char.ofNat b) ∧
    ((handleExecOutputDelta chunk st).toolBuffer).length =
      st.toolBuffer.length + chunk.length := by
  have hmap : fromCharCode chunk = chunk.map (fun b => Char.ofNat b) := by
    unfold fromCharCode
    apply List.map_congr_left
    intro b hb
    rw [Nat.mod_eq_of_lt (lt_trans (h b hb) (by norm_num))]
  have hbuf : (handleExecOutputDelta chunk st).toolBuffer =
      st.toolBuffer ++ chunk.map (fun b => Char.ofNat b) := by
    unfold handleExecOutputDelta scheduleToolFlush
    split <;> simp [hmap]
  exact ⟨hbuf, by rw [hbuf]; simp⟩

theorem exec_output_delta_byte_per_char_witness :
    (handleExecOutputDelta (72 :: 195 :: 169 :: []) initState).toolBuffer =
      initState.toolBuffer ++
        (72 :: 195 :: 169 :: []).map (fun b => Char.ofNat b) ∧
    ((handleExecOutputDelta (72 :: 195 :: 169 :: []) initState).toolBuffer).length =
      initState.toolBuffer.length + (72 :: 195 :: 169 :: []).length :=
  exec_output_delta_byte_per_char (72 :: 195 :: 169 :: []) initState (by decide)
